import Mathlib

/-!
Verification of the IPv4 multicast group / subscriber map wrappers
(`pkg/maps/multicast/subscribermap.go`).

The eBPF map service is an external collaborator.  It is modelled by
explicit parameters: a batch lookup consumes a script of fetch results
(the entries each `BatchLookup` call writes into the caller's buffers
from index 0, plus the error it reports), sequential iteration consumes
the list of yielded keys plus the iterator's final error, and injected
`Err` values stand for lower-level service failures.
-/

/-- A single octet (0 to 255) of an IPv4 address, as a natural number. -/
abbrev Byte := Nat

/-- The four octets of an IPv4 address, in big-endian order. -/
structure V4Bytes where
  b0 : Byte
  b1 : Byte
  b2 : Byte
  b3 : Byte
deriving DecidableEq

/-- Model of `netip.Addr`: the zero (invalid) address, an IPv4 address,
or an IPv6 address (16 bytes). -/
inductive NetIPAddr where
  | invalid : NetIPAddr
  | v4 : V4Bytes → NetIPAddr
  | v6 : List Byte → NetIPAddr
deriving DecidableEq

/-- Model of `netip.Addr.Is4`. -/
def NetIPAddr.Is4 : NetIPAddr → Bool
  | .v4 _ => true
  | _ => false

/-- Model of `netip.Addr.IsMulticast`: for IPv4 the first octet lies in
224 to 239 (the 224.0.0.0/4 class); for IPv6 the first byte is 0xff. -/
def NetIPAddr.IsMulticast : NetIPAddr → Bool
  | .v4 b => decide (224 ≤ b.b0) && decide (b.b0 < 240)
  | .v6 bs => bs.headD 0 == 255
  | .invalid => false

/-- Model of `netip.Addr.As4`.  Defined only on IPv4 addresses (Go panics
otherwise); the other branches return a junk value and are never reached
under the `Is4` guard in this package. -/
def NetIPAddr.As4 : NetIPAddr → V4Bytes
  | .v4 b => b
  | _ => ⟨0, 0, 0, 0⟩

/-- Model of `netip.AddrFromSlice`: a 4-byte slice decodes to an IPv4
address, a 16-byte slice to an IPv6 address, anything else fails. -/
def AddrFromSlice : List Byte → NetIPAddr × Bool
  | [a, b, c, d] => (NetIPAddr.v4 ⟨a, b, c, d⟩, true)
  | l => if l.length = 16 then (NetIPAddr.v6 l, true) else (NetIPAddr.invalid, false)

/-- Model of the Go error values this package distinguishes: codec
rejections (`fmt.Errorf` with a fixed message), the `ErrKeyNotExist` and
`ErrNotSupported` sentinel classes, the key/value conversion failures,
opaque lower-level service failures, and `fmt.Errorf` `%w` wrapping. -/
inductive Err where
  | invalidAddress : String → Err
  | keyNotExist : Err
  | notSupported : Err
  | convertFailed : String → Err
  | service : Nat → Err
  | wrapped : String → Err → Err
deriving DecidableEq

/-- Model of `errors.Is`: equality against the target, unwrapping
`wrapped` chains. -/
def Err.is : Err → Err → Bool
  | .wrapped m inner, target => Err.wrapped m inner == target || inner.is target
  | e, target => e == target

/-- True when the error is a `fmt.Errorf` wrapper, i.e. carries an
operation message around an inner error. -/
def Err.isWrapped : Err → Bool
  | .wrapped _ _ => true
  | _ => false

/-- `MaxGroups`: total number of multicast groups on a single node. -/
def MaxGroups : Nat := 1024

/-- `MaxSubscribers`: total number of subscribers per multicast group. -/
def MaxSubscribers : Nat := 1024

/-- `GroupV4Key`: the 4-byte big-endian IPv4 multicast group address. -/
structure GroupV4Key where
  Group : V4Bytes
deriving DecidableEq

/-- `NewGroupV4KeyFromNetIPAddr`: rejects input that is not an IPv4
multicast address, otherwise takes the 4 octets. -/
def NewGroupV4KeyFromNetIPAddr (ip : NetIPAddr) : Except Err GroupV4Key :=
  if !ip.Is4 || !ip.IsMulticast then
    Except.error (Err.invalidAddress "ip must be an IPv4 multicast address")
  else
    Except.ok { Group := ip.As4 }

/-- `GroupV4Key.ToNetIPAddr`: decode the 4 stored bytes via
`netip.AddrFromSlice`. -/
def GroupV4Key.ToNetIPAddr (k : GroupV4Key) : NetIPAddr × Bool :=
  AddrFromSlice [k.Group.b0, k.Group.b1, k.Group.b2, k.Group.b3]

/-- `GroupV4Val`: the value of a `GroupV4OuterMap`, a file descriptor for
an inner `SubscriberV4InnerMap`. -/
structure GroupV4Val where
  FD : Nat
deriving DecidableEq

/-- `SubscriberV4Key`: the 4-byte big-endian IPv4 source address of a
subscriber. -/
structure SubscriberV4Key where
  SAddr : V4Bytes
deriving DecidableEq

/-- `NewSubscriberV4KeyFromNetIPAddr`: rejects non-IPv4 input (no
multicast-class restriction), otherwise takes the 4 octets. -/
def NewSubscriberV4KeyFromNetIPAddr (ip : NetIPAddr) : Except Err SubscriberV4Key :=
  if !ip.Is4 then
    Except.error (Err.invalidAddress "ip must be IPv4")
  else
    Except.ok { SAddr := ip.As4 }

/-- `SubscriberV4Key.ToNetIPAddr`. -/
def SubscriberV4Key.ToNetIPAddr (k : SubscriberV4Key) : NetIPAddr × Bool :=
  AddrFromSlice [k.SAddr.b0, k.SAddr.b1, k.SAddr.b2, k.SAddr.b3]

/-- `SubscriberRemote`: flag bit 0, marking a subscriber as remote. -/
def SubscriberRemote : Nat := 1

/-- `SubscriberV4Val`: the stored value of a subscriber map entry. -/
structure SubscriberV4Val where
  SourceAddr : V4Bytes
  Ifindex : Nat
  Pad1 : Nat
  Pad2 : Nat
  Flags : Nat
deriving DecidableEq

/-- `SubscriberV4`: the decoded subscriber record. -/
structure SubscriberV4 where
  SAddr : NetIPAddr
  Ifindex : Nat
  IsRemote : Bool
deriving DecidableEq

/-- `SubscriberV4Val.ToSubsciberV4`: decode the stored source address and
set `IsRemote` when the flags byte is nonzero (`if v.Flags != 0`). -/
def SubscriberV4Val.ToSubsciberV4 (v : SubscriberV4Val) : Except Err SubscriberV4 :=
  match (SubscriberV4Key.mk v.SourceAddr).ToNetIPAddr with
  | (saddr, true) =>
      Except.ok { SAddr := saddr, Ifindex := v.Ifindex, IsRemote := v.Flags != 0 }
  | (_, false) =>
      Except.error (Err.convertFailed "failed to convert SubscriberV4Val.SAddr to netip.Addr")

/-- One `BatchLookup` call as observed by the caller: the entries the
service writes into the caller's buffer (always starting at index 0) and
the error the call reports (`none` means the cursor continues). -/
structure BatchStep (α : Type) where
  entries : List α
  err : Option Err
deriving DecidableEq

/-- Effect of one `BatchLookup` call on the caller's fixed-size buffer:
the returned entries overwrite the buffer from index 0, the remaining
slots keep their previous contents; the buffer length never changes. -/
def writeBuf {α : Type} (buf : List α) (es : List α) : List α :=
  es.take buf.length ++ buf.drop es.length

/-- The `for { c, batchErr := m.BatchLookup(...); count += c; ... }` loop
shared by `GroupV4OuterMap.ListBatch` and `SubscriberV4InnerMap.List`:
every call adds its entry count to `count` and rewrites the buffer; a
call reporting `ErrKeyNotExist` (checked with `errors.Is`) breaks with
success, any other error stops the loop with that error.  The result is
`none` when the script ends without a terminating call (the Go loop
would keep calling). -/
def batchLoop {α : Type} (buf : List α) (count : Nat) :
    List (BatchStep α) → Option (List α × Nat × Option Err)
  | [] => none
  | s :: rest =>
    let buf' := writeBuf buf s.entries
    let count' := count + s.entries.length
    match s.err with
    | none => batchLoop buf' count' rest
    | some e =>
      if e.is Err.keyNotExist then some (buf', count', none)
      else some (buf', count', some e)

/-- The decode loop of `GroupV4OuterMap.ListBatch`
(`for i := 0; i < len(keys) && i < count; i++`): convert each key,
failing on the first key whose conversion reports not-ok. -/
def decodeGroupKeys : List GroupV4Key → Except Err (List NetIPAddr)
  | [] => Except.ok []
  | k :: ks =>
    match k.ToNetIPAddr with
    | (ip, true) => (decodeGroupKeys ks).map (fun l => ip :: l)
    | (_, false) => Except.error (Err.convertFailed "failed to convert GroupV4Key.Group to netip.Addr")

/-- The decode loop of `SubscriberV4InnerMap.List`. -/
def decodeSubVals : List SubscriberV4Val → Except Err (List SubscriberV4)
  | [] => Except.ok []
  | v :: vs =>
    match v.ToSubsciberV4 with
    | Except.ok s => (decodeSubVals vs).map (fun l => s :: l)
    | Except.error e => Except.error e

/-- The all-zero `GroupV4Key`, the initial content of the keys buffer
(`make([]GroupV4Key, MaxGroups)`). -/
def zeroGroupKey : GroupV4Key := ⟨⟨0, 0, 0, 0⟩⟩

/-- The all-zero `SubscriberV4Val`, the initial content of the values
buffer (`make([]SubscriberV4Val, MaxSubscribers)`). -/
def zeroSubVal : SubscriberV4Val := ⟨⟨0, 0, 0, 0⟩, 0, 0, 0, 0⟩

/-- `GroupV4OuterMap`: only the cached capability flag matters to the
control flow modelled here. -/
structure GroupV4OuterMap where
  batchLookupSupported : Bool
deriving DecidableEq

/-- `GroupV4OuterMap.ListBatch`, parametrised by the script of
`BatchLookup` results.  The values buffer is not modelled: `ListBatch`
never reads it.  On loop success the first `min(len(keys), count)`
buffer slots are decoded; on any failure the function returns a nil
slice (`none`) together with the error. -/
def GroupV4OuterMap.ListBatch (script : List (BatchStep GroupV4Key)) :
    Option (Option (List NetIPAddr) × Option Err) :=
  match batchLoop (List.replicate MaxGroups zeroGroupKey) 0 script with
  | none => none
  | some (_, _, some e) => some (none, some e)
  | some (buf, count, none) =>
    match decodeGroupKeys (buf.take (min buf.length count)) with
    | Except.error e => some (none, some e)
    | Except.ok out => some (some out, none)

/-- The body of `GroupV4OuterMap.ListIterator`'s `for iter.Next` loop:
`acc` is the `out` slice built so far; when the yielded keys are
exhausted the iterator's final error (`iter.Err()`) is returned with the
accumulated slice; a key conversion failure returns the accumulated
slice with the conversion error. -/
def listIteratorGo (acc : List NetIPAddr) :
    List GroupV4Key → Option Err → Option (List NetIPAddr) × Option Err
  | [], iterErr => (some acc, iterErr)
  | k :: ks, iterErr =>
    match k.ToNetIPAddr with
    | (ip, true) => listIteratorGo (acc ++ [ip]) ks iterErr
    | (_, false) => (some acc, some (Err.convertFailed "failed to convert key to netip.Addr"))

/-- `GroupV4OuterMap.ListIterator`, parametrised by the keys the
iterator yields and the error `iter.Err()` reports afterwards. -/
def GroupV4OuterMap.ListIterator (entries : List GroupV4Key) (iterErr : Option Err) :
    Option (List NetIPAddr) × Option Err :=
  listIteratorGo [] entries iterErr

/-- `GroupV4OuterMap.List`: dispatch on the cached
`batchLookupSupported` flag. -/
def GroupV4OuterMap.List (m : GroupV4OuterMap) (script : List (BatchStep GroupV4Key))
    (entries : List GroupV4Key) (iterErr : Option Err) :
    Option (Option (List NetIPAddr) × Option Err) :=
  if m.batchLookupSupported then GroupV4OuterMap.ListBatch script
  else some (GroupV4OuterMap.ListIterator entries iterErr)

/-- `SubscriberV4InnerMap.List`, parametrised by the script of
`BatchLookup` results.  The keys buffer is not modelled: the decode loop
only reads `vals`. -/
def SubscriberV4InnerMap.List (script : List (BatchStep SubscriberV4Val)) :
    Option (Option (List SubscriberV4) × Option Err) :=
  match batchLoop (List.replicate MaxSubscribers zeroSubVal) 0 script with
  | none => none
  | some (_, _, some e) => some (none, some e)
  | some (buf, count, none) =>
    match decodeSubVals (buf.take (min buf.length count)) with
    | Except.error e => some (none, some e)
    | Except.ok out => some (some out, none)

/-- `haveBatchLookupSupport`: one `BatchLookup` call with single-element
buffers; `probeErr` is that call's error.  Capability is false exactly
when the call failed with the `ErrNotSupported` class (checked with
`errors.Is`); any other outcome, success included, yields true. -/
def haveBatchLookupSupport (probeErr : Option Err) : Bool :=
  match probeErr with
  | some e => !(e.is Err.notSupported)
  | none => true

/-- `OpenGroupV4OuterMap`: `loadErr` is the outcome of
`ebpf.LoadRegisterMap`; on success the capability flag is computed once
from the probe call's outcome and stored on the returned map. -/
def OpenGroupV4OuterMap (loadErr : Option Err) (probeErr : Option Err) :
    Except Err GroupV4OuterMap :=
  match loadErr with
  | some e => Except.error e
  | none => Except.ok { batchLookupSupported := haveBatchLookupSupport probeErr }

/-- The `OnStart` hook body of `NewGroupV4Map`: `OpenOrCreate` first
(`openErr` its outcome), then the capability flag is probed once and
cached on the map. -/
def groupMapOnStart (openErr : Option Err) (probeErr : Option Err) :
    Except Err GroupV4OuterMap :=
  match openErr with
  | some e => Except.error e
  | none => Except.ok { batchLookupSupported := haveBatchLookupSupport probeErr }

/-- External outcomes consumed by one run of `GroupV4OuterMap.Insert`:
the result of `newSubscriberV4InnerMap`, of the outer-table
`Update(..., UpdateNoExist)`, and of `subMap.Close()` (consulted only if
`Close` is invoked). -/
structure InsertEnv where
  createErr : Option Err
  updateErr : Option Err
  closeErr : Option Err
deriving DecidableEq

/-- Result of `GroupV4OuterMap.Insert` together with the observable
effect trace: whether `subMap.Close()` was invoked. -/
structure InsertResult where
  err : Option Err
  closeCalled : Bool
deriving DecidableEq

/-- `GroupV4OuterMap.Insert`: encode the group key, allocate a fresh
inner map, then register it with an insert-if-absent update; on update
failure `subMap.Close()` is invoked and the update error is wrapped and
returned — the value of `env.closeErr` is not consulted, exactly as in
the Go code, which discards `Close`'s result. -/
def GroupV4OuterMap.Insert (env : InsertEnv) (group : NetIPAddr) : InsertResult :=
  match NewGroupV4KeyFromNetIPAddr group with
  | Except.error e => ⟨some e, false⟩
  | Except.ok _ =>
    match env.createErr with
    | some e => ⟨some (Err.wrapped "failed to create SubscriberV4InnerMap" e), false⟩
    | none =>
      match env.updateErr with
      | some e => ⟨some (Err.wrapped "failed to create new multicast group entry" e), true⟩
      | none => ⟨none, false⟩

/-- Modelled from the spec: the underlying table-service `delete(key)`
(the `pkg/ebpf` map wrapper, not under `src/`): atomic, fails with the
not-found sentinel when the key is absent, and may otherwise fail with
an arbitrary lower-level error (`svcErr`). -/
def ebpfMapDelete (present : Bool) (svcErr : Option Err) : Option Err :=
  if !present then some Err.keyNotExist else svcErr

/-- `GroupV4OuterMap.Delete`: encode the key, then return the underlying
delete's error unchanged (`return m.Map.Delete(key)`). -/
def GroupV4OuterMap.Delete (present : Bool) (svcErr : Option Err) (group : NetIPAddr) :
    Option Err :=
  match NewGroupV4KeyFromNetIPAddr group with
  | Except.error e => some e
  | Except.ok _ => ebpfMapDelete present svcErr

/-- `SubscriberV4InnerMap.Delete`: encode the key, then return the
underlying delete's error unchanged. -/
def SubscriberV4InnerMap.Delete (present : Bool) (svcErr : Option Err) (src : NetIPAddr) :
    Option Err :=
  match NewSubscriberV4KeyFromNetIPAddr src with
  | Except.error e => some e
  | Except.ok _ => ebpfMapDelete present svcErr

/-- State of one subscriber table: an association list from key bytes to
stored values. -/
abbrev SubMapState := List (V4Bytes × SubscriberV4Val)

/-- Modelled from the spec: the underlying table-service `lookup(key)`
(the `pkg/ebpf` map wrapper, not under `src/`): an injected service
failure if any, else the stored value, else the not-found sentinel. -/
def ebpfMapLookup (st : SubMapState) (svcErr : Option Err)
    (k : V4Bytes) : Except Err SubscriberV4Val :=
  match svcErr with
  | some e => Except.error e
  | none =>
    match st.find? (fun p => p.1 == k) with
    | some p => Except.ok p.2
    | none => Except.error Err.keyNotExist

/-- `SubscriberV4InnerMap.Lookup`: encode the key, query the underlying
map (wrapping a not-found or other failure), then decode the stored
value with `ToSubsciberV4`. -/
def SubscriberV4InnerMap.Lookup (st : SubMapState)
    (svcErr : Option Err) (src : NetIPAddr) : Except Err SubscriberV4 :=
  match NewSubscriberV4KeyFromNetIPAddr src with
  | Except.error e => Except.error e
  | Except.ok key =>
    match ebpfMapLookup st svcErr key.SAddr with
    | Except.error e =>
      if e.is Err.keyNotExist then
        Except.error (Err.wrapped "no subscriber with source address" e)
      else
        Except.error (Err.wrapped "failed to lookup subscriber" e)
    | Except.ok val =>
      match val.ToSubsciberV4 with
      | Except.error e => Except.error e
      | Except.ok sub => Except.ok sub

/-- Decoding a 4-byte group key always succeeds and yields the IPv4
address built from its bytes. -/
theorem toNetIPAddr_group (k : GroupV4Key) :
    k.ToNetIPAddr = (NetIPAddr.v4 k.Group, true) := by
  rcases k with ⟨⟨b0, b1, b2, b3⟩⟩
  rfl

/-- Decoding a 4-byte subscriber key always succeeds. -/
theorem toNetIPAddr_sub (k : SubscriberV4Key) :
    k.ToNetIPAddr = (NetIPAddr.v4 k.SAddr, true) := by
  rcases k with ⟨⟨b0, b1, b2, b3⟩⟩
  rfl

/-- `ToSubsciberV4` always succeeds: the decoded record carries the
stored source address and interface index, and is remote exactly when
the stored flags byte is nonzero. -/
theorem toSubsciberV4_ok (v : SubscriberV4Val) :
    v.ToSubsciberV4 =
      Except.ok ⟨NetIPAddr.v4 v.SourceAddr, v.Ifindex, v.Flags != 0⟩ := by
  rcases v with ⟨⟨b0, b1, b2, b3⟩, ifx, p1, p2, fl⟩
  rfl

/-- The iterator loop decodes every yielded key and appends it to the
accumulator, then reports the iterator's error. -/
theorem listIteratorGo_acc (entries : List GroupV4Key) (acc : List NetIPAddr)
    (iterErr : Option Err) :
    listIteratorGo acc entries iterErr =
      (some (acc ++ entries.map (fun k => NetIPAddr.v4 k.Group)), iterErr) := by
  induction entries generalizing acc with
  | nil => simp [listIteratorGo]
  | cons k ks ih =>
    rw [listIteratorGo, toNetIPAddr_group]
    simp [ih]

/-- The batch decode loop for group keys never fails. -/
theorem decodeGroupKeys_ok (ks : List GroupV4Key) :
    decodeGroupKeys ks = Except.ok (ks.map (fun k => NetIPAddr.v4 k.Group)) := by
  induction ks with
  | nil => rfl
  | cons k ks ih =>
    rw [decodeGroupKeys, toNetIPAddr_group, ih]
    rfl

/-- The batch decode loop for subscriber values never fails. -/
theorem decodeSubVals_ok (vs : List SubscriberV4Val) :
    decodeSubVals vs =
      Except.ok (vs.map (fun v => ⟨NetIPAddr.v4 v.SourceAddr, v.Ifindex, v.Flags != 0⟩)) := by
  induction vs with
  | nil => rfl
  | cons v vs ih =>
    rw [decodeSubVals, toSubsciberV4_ok, ih]
    rfl

/-- If every call before `s` continues the cursor and `s` fails with a
non-exhaustion error, the batch loop stops at `s` with that error,
whatever calls would have followed. -/
theorem batchLoop_first_failure {α : Type} (pre : List (BatchStep α))
    (s : BatchStep α) (rest : List (BatchStep α)) (e : Err)
    (hpre : ∀ x ∈ pre, x.err = none) (hs : s.err = some e)
    (he : e.is Err.keyNotExist = false) :
    ∀ (buf : List α) (count : Nat), ∃ buf' count',
      batchLoop buf count (pre ++ s :: rest) = some (buf', count', some e) := by
  induction pre with
  | nil =>
    intro buf count
    refine ⟨writeBuf buf s.entries, count + s.entries.length, ?_⟩
    simp [batchLoop, hs, he]
  | cons x xs ih =>
    intro buf count
    have hx : x.err = none := hpre x (by simp)
    have ih' := ih (fun y hy => hpre y (by simp [hy]))
    simpa [batchLoop, hx] using ih' (writeBuf buf x.entries) (count + x.entries.length)

set_option maxRecDepth 16384 in
/-- C1: evaluation of the batch listers on a cursor sequence of two
entry-carrying fetches.  The claim says the returned list is the
concatenation of the entries of every fetch; the code instead overwrites
the buffer from index 0 on every call and accumulates only the count, so
the first call's entry is lost and a zero-valued buffer slot is reported
in its place. -/
theorem listBatch_discards_nonfinal_fetch :
    SubscriberV4InnerMap.List
        [⟨[⟨⟨10, 0, 0, 1⟩, 1, 0, 0, 0⟩], none⟩,
         ⟨[⟨⟨10, 0, 0, 2⟩, 2, 0, 0, 0⟩], some Err.keyNotExist⟩] =
      some (some [⟨NetIPAddr.v4 ⟨10, 0, 0, 2⟩, 2, false⟩,
                  ⟨NetIPAddr.v4 ⟨0, 0, 0, 0⟩, 0, false⟩], none)
    ∧ GroupV4OuterMap.ListBatch
        [⟨[⟨⟨224, 0, 0, 1⟩⟩], none⟩, ⟨[⟨⟨224, 0, 0, 2⟩⟩], some Err.keyNotExist⟩] =
      some (some [NetIPAddr.v4 ⟨224, 0, 0, 2⟩, NetIPAddr.v4 ⟨0, 0, 0, 0⟩], none)
    ∧ ([⟨[⟨⟨224, 0, 0, 1⟩⟩], none⟩,
        (⟨[⟨⟨224, 0, 0, 2⟩⟩], some Err.keyNotExist⟩ : BatchStep GroupV4Key)].map
          BatchStep.entries).flatten = [⟨⟨224, 0, 0, 1⟩⟩, ⟨⟨224, 0, 0, 2⟩⟩]
    ∧ [NetIPAddr.v4 ⟨224, 0, 0, 2⟩, NetIPAddr.v4 ⟨0, 0, 0, 0⟩] ≠
      [NetIPAddr.v4 ⟨224, 0, 0, 1⟩, NetIPAddr.v4 ⟨224, 0, 0, 2⟩] :=
  ⟨rfl, rfl, rfl, by decide⟩

/-- C2 counterexample: registration fails with `service 1` and the
subsequent `Close` fails with `service 2`; the error `Insert` returns
wraps only the registration failure and nowhere mentions the close
failure, so the release failure is discarded, not reported alongside. -/
theorem insert_close_error_discarded_cex :
    GroupV4OuterMap.Insert ⟨none, some (Err.service 1), some (Err.service 2)⟩
        (NetIPAddr.v4 ⟨224, 0, 0, 5⟩) =
      ⟨some (Err.wrapped "failed to create new multicast group entry" (Err.service 1)), true⟩
    ∧ Err.is (Err.wrapped "failed to create new multicast group entry" (Err.service 1))
        (Err.service 2) = false :=
  ⟨rfl, rfl⟩

/-- C2 amended: when the inner map was allocated and the outer-table
registration fails, `Close` is invoked on the inner map before the
wrapped registration error is returned; the close outcome
(`env.closeErr`) does not appear in the hypotheses, so the returned
error is the same whether the release succeeds or fails — the release
failure is discarded. -/
theorem insert_releases_inner_map_on_update_failure (env : InsertEnv)
    (g : NetIPAddr) (e : Err) (hg : (g.Is4 && g.IsMulticast) = true)
    (hc : env.createErr = none) (hu : env.updateErr = some e) :
    GroupV4OuterMap.Insert env g =
      ⟨some (Err.wrapped "failed to create new multicast group entry" e), true⟩ := by
  simp only [Bool.and_eq_true] at hg
  simp [GroupV4OuterMap.Insert, NewGroupV4KeyFromNetIPAddr, hg.1, hg.2, hc, hu]

/-- C2 witness: the amended statement at a concrete environment. -/
theorem insert_releases_inner_map_on_update_failure_witness :
    GroupV4OuterMap.Insert ⟨none, some (Err.service 9), some (Err.service 4)⟩
        (NetIPAddr.v4 ⟨239, 1, 1, 1⟩) =
      ⟨some (Err.wrapped "failed to create new multicast group entry" (Err.service 9)), true⟩ :=
  insert_releases_inner_map_on_update_failure
    ⟨none, some (Err.service 9), some (Err.service 4)⟩
    (NetIPAddr.v4 ⟨239, 1, 1, 1⟩) (Err.service 9) (by decide) rfl rfl

set_option maxRecDepth 16384 in
/-- C3 counterexample: the subscriber batch lister, after one successful
fetch carrying an entry, hits a non-exhaustion error; it returns a nil
slice together with the error, not the partial results accumulated so
far (the decoded entry of the first fetch). -/
theorem batch_list_drops_partial_results_cex :
    SubscriberV4InnerMap.List
        [⟨[⟨⟨10, 0, 0, 1⟩, 1, 0, 0, 0⟩], none⟩, ⟨[], some (Err.service 5)⟩] =
      some (none, some (Err.service 5))
    ∧ (none : Option (List SubscriberV4)) ≠
      some [⟨NetIPAddr.v4 ⟨10, 0, 0, 1⟩, 1, false⟩] :=
  ⟨rfl, by simp⟩

/-- C3 amended: every enumeration stops at the first non-exhaustion
error and never consults later fetches (`rest` is arbitrary); the
iterator strategy returns the results accumulated so far together with
the error, while both batch listers return a nil slice together with the
error. -/
theorem enumeration_abort_behavior :
    (∀ (entries : List GroupV4Key) (e : Err),
        GroupV4OuterMap.ListIterator entries (some e) =
          (some (entries.map (fun k => NetIPAddr.v4 k.Group)), some e))
    ∧ (∀ (pre rest : List (BatchStep GroupV4Key)) (s : BatchStep GroupV4Key) (e : Err),
        (∀ x ∈ pre, x.err = none) → s.err = some e → e.is Err.keyNotExist = false →
        GroupV4OuterMap.ListBatch (pre ++ s :: rest) = some (none, some e))
    ∧ (∀ (pre rest : List (BatchStep SubscriberV4Val)) (s : BatchStep SubscriberV4Val) (e : Err),
        (∀ x ∈ pre, x.err = none) → s.err = some e → e.is Err.keyNotExist = false →
        SubscriberV4InnerMap.List (pre ++ s :: rest) = some (none, some e)) := by
  refine ⟨?_, ?_, ?_⟩
  · intro entries e
    simp [GroupV4OuterMap.ListIterator, listIteratorGo_acc]
  · intro pre rest s e hpre hs he
    obtain ⟨buf', count', hloop⟩ :=
      batchLoop_first_failure pre s rest e hpre hs he (List.replicate MaxGroups zeroGroupKey) 0
    simp [GroupV4OuterMap.ListBatch, hloop]
  · intro pre rest s e hpre hs he
    obtain ⟨buf', count', hloop⟩ :=
      batchLoop_first_failure pre s rest e hpre hs he (List.replicate MaxSubscribers zeroSubVal) 0
    simp [SubscriberV4InnerMap.List, hloop]

/-- C3 witness: the amended statement at concrete inputs. -/
theorem enumeration_abort_behavior_witness :
    GroupV4OuterMap.ListIterator [⟨⟨224, 0, 0, 1⟩⟩] (some (Err.service 8)) =
      (some [NetIPAddr.v4 ⟨224, 0, 0, 1⟩], some (Err.service 8))
    ∧ GroupV4OuterMap.ListBatch
        [⟨[⟨⟨224, 0, 0, 1⟩⟩], none⟩, ⟨[], some (Err.service 8)⟩,
         ⟨[⟨⟨224, 0, 0, 9⟩⟩], some Err.keyNotExist⟩] =
      some (none, some (Err.service 8)) :=
  ⟨enumeration_abort_behavior.1 [⟨⟨224, 0, 0, 1⟩⟩] (Err.service 8),
   enumeration_abort_behavior.2.1 [⟨[⟨⟨224, 0, 0, 1⟩⟩], none⟩]
     [⟨[⟨⟨224, 0, 0, 9⟩⟩], some Err.keyNotExist⟩] ⟨[], some (Err.service 8)⟩
     (Err.service 8) (by decide) rfl rfl⟩

/-- C4 counterexample: a stored value whose flags byte is 2 — bit 0 (the
`SubscriberRemote` bit) clear, a reserved bit set — is decoded by
`Lookup` with `IsRemote = true`, while the claim requires `remote =
false` whenever bit 0 is clear. -/
theorem lookup_flags_bit_cex :
    SubscriberV4InnerMap.Lookup
        [(⟨192, 168, 1, 10⟩, ⟨⟨192, 168, 1, 10⟩, 7, 0, 0, 2⟩)] none
        (NetIPAddr.v4 ⟨192, 168, 1, 10⟩) =
      Except.ok ⟨NetIPAddr.v4 ⟨192, 168, 1, 10⟩, 7, true⟩
    ∧ 2 &&& SubscriberRemote = 0 :=
  ⟨rfl, rfl⟩

/-- C4 amended: decoding marks a record remote exactly when the whole
stored flags byte is nonzero (`if v.Flags != 0`), not by testing bit 0
alone; every successful `Lookup` reports the record decoded this way
from the stored value. -/
theorem lookup_decodes_nonzero_flags_as_remote :
    (∀ v : SubscriberV4Val,
        v.ToSubsciberV4 =
          Except.ok ⟨NetIPAddr.v4 v.SourceAddr, v.Ifindex, v.Flags != 0⟩)
    ∧ (∀ (st : SubMapState) (svcErr : Option Err) (src : NetIPAddr)
        (key : SubscriberV4Key) (val : SubscriberV4Val) (sub : SubscriberV4),
        NewSubscriberV4KeyFromNetIPAddr src = Except.ok key →
        ebpfMapLookup st svcErr key.SAddr = Except.ok val →
        SubscriberV4InnerMap.Lookup st svcErr src = Except.ok sub →
        sub = ⟨NetIPAddr.v4 val.SourceAddr, val.Ifindex, val.Flags != 0⟩) := by
  refine ⟨toSubsciberV4_ok, ?_⟩
  intro st svcErr src key val sub hk hv hsub
  simp [SubscriberV4InnerMap.Lookup, hk, hv, toSubsciberV4_ok] at hsub
  exact hsub.symm

/-- C4 witness: the amended statement at a concrete table state. -/
theorem lookup_decodes_nonzero_flags_as_remote_witness :
    (⟨NetIPAddr.v4 ⟨10, 0, 0, 1⟩, 3, true⟩ : SubscriberV4) =
      ⟨NetIPAddr.v4 ⟨10, 0, 0, 1⟩, 3, (2 : Nat) != 0⟩ :=
  lookup_decodes_nonzero_flags_as_remote.2
    [(⟨10, 0, 0, 1⟩, ⟨⟨10, 0, 0, 1⟩, 3, 0, 0, 2⟩)] none
    (NetIPAddr.v4 ⟨10, 0, 0, 1⟩) ⟨⟨10, 0, 0, 1⟩⟩ ⟨⟨10, 0, 0, 1⟩, 3, 0, 0, 2⟩
    ⟨NetIPAddr.v4 ⟨10, 0, 0, 1⟩, 3, true⟩ rfl rfl rfl

set_option maxRecDepth 16384 in
/-- C5: on the same underlying state holding the two distinct groups
224.0.0.1 and 224.0.0.2, the iterator strategy returns exactly those two
addresses, but the batch strategy — when the service legitimately spreads
the same two entries over two cursor calls — returns 224.0.0.2 and the
zero address 0.0.0.0 instead; the two strategies disagree, and the batch
output is not the inserted set. -/
theorem iterator_batch_disagree_eval :
    GroupV4OuterMap.ListIterator [⟨⟨224, 0, 0, 1⟩⟩, ⟨⟨224, 0, 0, 2⟩⟩] none =
      (some [NetIPAddr.v4 ⟨224, 0, 0, 1⟩, NetIPAddr.v4 ⟨224, 0, 0, 2⟩], none)
    ∧ GroupV4OuterMap.ListBatch
        [⟨[⟨⟨224, 0, 0, 1⟩⟩], none⟩, ⟨[⟨⟨224, 0, 0, 2⟩⟩], some Err.keyNotExist⟩] =
      some (some [NetIPAddr.v4 ⟨224, 0, 0, 2⟩, NetIPAddr.v4 ⟨0, 0, 0, 0⟩], none)
    ∧ ([⟨[⟨⟨224, 0, 0, 1⟩⟩], none⟩,
        (⟨[⟨⟨224, 0, 0, 2⟩⟩], some Err.keyNotExist⟩ : BatchStep GroupV4Key)].map
          BatchStep.entries).flatten = [⟨⟨224, 0, 0, 1⟩⟩, ⟨⟨224, 0, 0, 2⟩⟩]
    ∧ NetIPAddr.v4 ⟨224, 0, 0, 1⟩ ∈
        [NetIPAddr.v4 ⟨224, 0, 0, 1⟩, NetIPAddr.v4 ⟨224, 0, 0, 2⟩]
    ∧ NetIPAddr.v4 ⟨224, 0, 0, 1⟩ ∉
        [NetIPAddr.v4 ⟨224, 0, 0, 2⟩, NetIPAddr.v4 ⟨0, 0, 0, 0⟩] :=
  ⟨rfl, rfl, rfl, by decide, by decide⟩

/-- C6: the capability probe is false exactly when its single
`BatchLookup` call (issued with single-element buffers) fails with the
`ErrNotSupported` class; any other outcome yields true.  Both
construction paths (`OpenGroupV4OuterMap` and the `OnStart` hook of
`NewGroupV4Map`) store that one-shot result on the map, and `List`
dispatches on the cached field without re-probing. -/
theorem probe_and_cache_spec (probeErr : Option Err) :
    (haveBatchLookupSupport probeErr = false ↔
      ∃ e, probeErr = some e ∧ e.is Err.notSupported = true)
    ∧ (∀ (loadErr : Option Err) (m : GroupV4OuterMap),
        OpenGroupV4OuterMap loadErr probeErr = Except.ok m →
        m.batchLookupSupported = haveBatchLookupSupport probeErr)
    ∧ (∀ (openErr : Option Err) (m : GroupV4OuterMap),
        groupMapOnStart openErr probeErr = Except.ok m →
        m.batchLookupSupported = haveBatchLookupSupport probeErr)
    ∧ (∀ (m : GroupV4OuterMap) (script : List (BatchStep GroupV4Key))
        (entries : List GroupV4Key) (iterErr : Option Err),
        GroupV4OuterMap.List m script entries iterErr =
          if m.batchLookupSupported then GroupV4OuterMap.ListBatch script
          else some (GroupV4OuterMap.ListIterator entries iterErr)) := by
  refine ⟨?_, ?_, ?_, ?_⟩
  · cases probeErr with
    | none => simp [haveBatchLookupSupport]
    | some e =>
      simp only [haveBatchLookupSupport]
      constructor
      · intro h
        refine ⟨e, rfl, ?_⟩
        cases h' : e.is Err.notSupported with
        | true => rfl
        | false => rw [h'] at h; simp at h
      · rintro ⟨e', he', hns⟩
        obtain rfl : e' = e := by injection he' with h; exact h.symm
        simp [hns]
  · intro loadErr m h
    cases loadErr with
    | some e => simp [OpenGroupV4OuterMap] at h
    | none =>
      simp [OpenGroupV4OuterMap] at h
      subst h
      rfl
  · intro openErr m h
    cases openErr with
    | some e => simp [groupMapOnStart] at h
    | none =>
      simp [groupMapOnStart] at h
      subst h
      rfl
  · intro m script entries iterErr
    rfl

/-- C6 witness: the probe at a concrete unsupported outcome, and the
flag cached by construction. -/
theorem probe_and_cache_spec_witness :
    haveBatchLookupSupport (some Err.notSupported) = false
    ∧ GroupV4OuterMap.batchLookupSupported ⟨false⟩ =
        haveBatchLookupSupport (some Err.notSupported) :=
  ⟨(probe_and_cache_spec (some Err.notSupported)).1.mpr ⟨Err.notSupported, rfl, rfl⟩,
   (probe_and_cache_spec (some Err.notSupported)).2.1 none ⟨false⟩ rfl⟩

/-- C7: encoding a valid IPv4 multicast address to a group key and
decoding the key yields the original address (and the ok flag). -/
theorem groupKey_roundtrip (a : NetIPAddr) (k : GroupV4Key)
    (h : NewGroupV4KeyFromNetIPAddr a = Except.ok k) :
    k.ToNetIPAddr = (a, true) := by
  cases a with
  | invalid => simp [NewGroupV4KeyFromNetIPAddr, NetIPAddr.Is4] at h
  | v6 bs => simp [NewGroupV4KeyFromNetIPAddr, NetIPAddr.Is4] at h
  | v4 b =>
    cases hm : NetIPAddr.IsMulticast (NetIPAddr.v4 b) with
    | false => simp [NewGroupV4KeyFromNetIPAddr, NetIPAddr.Is4, hm] at h
    | true =>
      simp [NewGroupV4KeyFromNetIPAddr, NetIPAddr.Is4, hm, NetIPAddr.As4] at h
      subst h
      exact toNetIPAddr_group _

/-- C7 witness: the round trip at 224.0.0.5. -/
theorem groupKey_roundtrip_witness :
    GroupV4Key.ToNetIPAddr ⟨⟨224, 0, 0, 5⟩⟩ = (NetIPAddr.v4 ⟨224, 0, 0, 5⟩, true) :=
  groupKey_roundtrip (NetIPAddr.v4 ⟨224, 0, 0, 5⟩) ⟨⟨224, 0, 0, 5⟩⟩ rfl

/-- C8: the group-key encoder fails with its invalid-address error
exactly when the input is not IPv4 or not multicast; the subscriber-key
encoder fails with its invalid-address error exactly when the input is
not IPv4, with no multicast restriction. -/
theorem encode_invalid_address_iff (a : NetIPAddr) :
    (NewGroupV4KeyFromNetIPAddr a =
        Except.error (Err.invalidAddress "ip must be an IPv4 multicast address") ↔
      (a.Is4 && a.IsMulticast) = false)
    ∧ (NewSubscriberV4KeyFromNetIPAddr a =
        Except.error (Err.invalidAddress "ip must be IPv4") ↔
      a.Is4 = false) := by
  cases ha : a.Is4 <;> cases hm : a.IsMulticast <;>
    simp [NewGroupV4KeyFromNetIPAddr, NewSubscriberV4KeyFromNetIPAddr, ha, hm]

/-- C8 witness: 10.0.0.1 (IPv4 but not multicast) is rejected by the
group encoder and accepted by the subscriber encoder. -/
theorem encode_invalid_address_iff_witness :
    NewGroupV4KeyFromNetIPAddr (NetIPAddr.v4 ⟨10, 0, 0, 1⟩) =
      Except.error (Err.invalidAddress "ip must be an IPv4 multicast address")
    ∧ ¬ (NewSubscriberV4KeyFromNetIPAddr (NetIPAddr.v4 ⟨10, 0, 0, 1⟩) =
        Except.error (Err.invalidAddress "ip must be IPv4")) :=
  ⟨(encode_invalid_address_iff (NetIPAddr.v4 ⟨10, 0, 0, 1⟩)).1.mpr (by decide),
   fun h => by
     have := (encode_invalid_address_iff (NetIPAddr.v4 ⟨10, 0, 0, 1⟩)).2.mp h
     simp [NetIPAddr.Is4] at this⟩

/-- C9 counterexample: when the underlying delete fails with a
lower-level service error, `GroupV4OuterMap.Delete` surfaces it exactly
as produced — a bare, unwrapped error, with no operation name or address
attached. -/
theorem delete_unwrapped_internal_cex :
    GroupV4OuterMap.Delete true (some (Err.service 3)) (NetIPAddr.v4 ⟨224, 0, 0, 5⟩) =
      some (Err.service 3)
    ∧ Err.isWrapped (Err.service 3) = false :=
  ⟨rfl, rfl⟩

/-- C9 amended: both deletes surface the not-found sentinel when the key
is absent, and pass every lower-level failure through unchanged (bare,
not wrapped with the operation name and address). -/
theorem delete_notfound_and_bare_errors :
    (∀ (present : Bool) (svcErr : Option Err) (g : NetIPAddr),
        (g.Is4 && g.IsMulticast) = true →
        GroupV4OuterMap.Delete present svcErr g =
          if present then svcErr else some Err.keyNotExist)
    ∧ (∀ (present : Bool) (svcErr : Option Err) (s : NetIPAddr),
        s.Is4 = true →
        SubscriberV4InnerMap.Delete present svcErr s =
          if present then svcErr else some Err.keyNotExist) := by
  constructor
  · intro present svcErr g hg
    simp only [Bool.and_eq_true] at hg
    cases present <;>
      simp [GroupV4OuterMap.Delete, NewGroupV4KeyFromNetIPAddr, ebpfMapDelete, hg.1, hg.2]
  · intro present svcErr s hs
    cases present <;>
      simp [SubscriberV4InnerMap.Delete, NewSubscriberV4KeyFromNetIPAddr, ebpfMapDelete, hs]

/-- C9 witness: deleting an absent group and an absent subscriber both
report the not-found sentinel. -/
theorem delete_notfound_and_bare_errors_witness :
    GroupV4OuterMap.Delete false none (NetIPAddr.v4 ⟨224, 0, 0, 5⟩) =
      some Err.keyNotExist
    ∧ SubscriberV4InnerMap.Delete false none (NetIPAddr.v4 ⟨10, 0, 0, 1⟩) =
      some Err.keyNotExist :=
  ⟨delete_notfound_and_bare_errors.1 false none (NetIPAddr.v4 ⟨224, 0, 0, 5⟩) (by decide),
   delete_notfound_and_bare_errors.2 false none (NetIPAddr.v4 ⟨10, 0, 0, 1⟩) (by decide)⟩

/-- C10: converting a 4-byte group key to an address always succeeds, so
the conversion-failure branches of the group enumerations are dead: the
iterator decodes every yielded key and reports only the iterator's own
error, and the batch lister decodes the buffer without ever producing
the conversion error. -/
theorem group_key_decode_total :
    (∀ k : GroupV4Key, k.ToNetIPAddr = (NetIPAddr.v4 k.Group, true))
    ∧ (∀ (entries : List GroupV4Key) (iterErr : Option Err),
        GroupV4OuterMap.ListIterator entries iterErr =
          (some (entries.map (fun k => NetIPAddr.v4 k.Group)), iterErr))
    ∧ (∀ ks : List GroupV4Key,
        decodeGroupKeys ks = Except.ok (ks.map (fun k => NetIPAddr.v4 k.Group)))
    ∧ (∀ (script : List (BatchStep GroupV4Key)) (buf : List GroupV4Key) (count : Nat),
        batchLoop (List.replicate MaxGroups zeroGroupKey) 0 script =
          some (buf, count, none) →
        GroupV4OuterMap.ListBatch script =
          some (some ((buf.take (min buf.length count)).map
            (fun k => NetIPAddr.v4 k.Group)), none)) := by
  refine ⟨toNetIPAddr_group, ?_, decodeGroupKeys_ok, ?_⟩
  · intro entries iterErr
    simp [GroupV4OuterMap.ListIterator, listIteratorGo_acc]
  · intro script buf count h
    simp [GroupV4OuterMap.ListBatch, h, decodeGroupKeys_ok]

set_option maxRecDepth 16384 in
/-- C10 witness: the batch conclusion at a one-call script that reports
exhaustion immediately. -/
theorem group_key_decode_total_witness :
    GroupV4OuterMap.ListBatch [⟨[], some Err.keyNotExist⟩] = some (some [], none) :=
  group_key_decode_total.2.2.2 [⟨[], some Err.keyNotExist⟩]
    (List.replicate MaxGroups zeroGroupKey) 0 rfl
